import Mathlib

/-!
Verification of the recruitment screening workflow (`src/app.py`).

The program threads a `State` record (a Python `TypedDict`, so every field
may be absent) through a small directed graph:
`categorize_experience → assess_skillset → route_app → one terminal stage`.
The two classifier stages call an external language model; we model each
call as an `Except E String` value (either a raw reply or a transport
failure).  Node field accesses use `dict.get`, which we model with
`Option`.  The graph runner mirrors LangGraph's `invoke`: it follows the
edges declared at `src/app.py:98-111` starting from `START`, with a
recursion limit (LangGraph's default is 25) as fuel.
-/

namespace Screening

/-- Python substring test on character lists: does the second list start
with the first?  (Mirrors how `pat in s` begins its scan.) -/
def startsWithL : List Char → List Char → Bool
  | [], _ => true
  | _ :: _, [] => false
  | p :: ps, c :: cs => p == c && startsWithL ps cs

/-- Python `pat in s` on character lists: `pat` occurs as a contiguous
run somewhere in `s` (the empty pattern occurs everywhere). -/
def hasSubL (pat : List Char) : List Char → Bool
  | [] => startsWithL pat []
  | c :: cs => startsWithL pat (c :: cs) || hasSubL pat cs

/-- Python `pat in s` for strings: substring containment. -/
def strContainsSub (s pat : String) : Bool := hasSubL pat.data s.data

/-- Python `str.lower()` (ASCII case mapping, which covers every keyword
the workflow tests for). -/
def pyLower (s : String) : String := ⟨s.data.map Char.toLower⟩

/-- Python `str.strip()`: remove leading and trailing whitespace. -/
def pyStrip (s : String) : String :=
  ⟨((s.data.dropWhile Char.isWhitespace).reverse.dropWhile Char.isWhitespace).reverse⟩

/-- The screening state (`class State(TypedDict)`, `src/app.py:23-27`).
A `TypedDict` instance may lack any of its declared keys, and the code
reads them with `.get`, so every field is an `Option`. -/
structure State where
  application : Option String
  experience_level : Option String
  skill_match : Option String
  response : Option String
deriving DecidableEq

/-- Normalization of the raw experience reply (`src/app.py:38-48`):
strip, lowercase, then test the substrings `entry`, `mid`, `senior`
in that order; otherwise `Unknown`. -/
def normalizeExperience (reply : String) : String :=
  let raw := pyStrip reply
  if strContainsSub (pyLower raw) "entry" then "Entry-level"
  else if strContainsSub (pyLower raw) "mid" then "Mid-level"
  else if strContainsSub (pyLower raw) "senior" then "Senior-level"
  else "Unknown"

/-- Normalization of the raw skill reply (`src/app.py:59-68`): strip,
lowercase, test `"no match"` before `"match"`; otherwise the conservative
default `No Match`. -/
def normalizeSkill (reply : String) : String :=
  let raw := pyStrip reply
  let low := pyLower raw
  if strContainsSub low "no match" then "No Match"
  else if strContainsSub low "match" then "Match"
  else "No Match"

/-- The `categorize_experience` node (`src/app.py:30-49`) given the raw
classifier reply: returns the partial update `{"experience_level": exp}`,
which LangGraph merges into the state. -/
def categorize_experience (reply : String) (st : State) : State :=
  { st with experience_level := some (normalizeExperience reply) }

/-- The `assess_skillset` node (`src/app.py:51-69`) given the raw
classifier reply: returns the partial update `{"skill_match": skill}`. -/
def assess_skillset (reply : String) (st : State) : State :=
  { st with skill_match := some (normalizeSkill reply) }

/-- The `schedule_interview` terminal node (`src/app.py:71-72`). -/
def schedule_interview (st : State) : State :=
  { st with response := some "Interview Scheduled" }

/-- The `escalate_to_recruiter` terminal node (`src/app.py:74-75`). -/
def escalate_to_recruiter (st : State) : State :=
  { st with response := some "Candidate Escalated" }

/-- The `reject_application` terminal node (`src/app.py:77-78`). -/
def reject_application (st : State) : State :=
  { st with response := some "Candidate Rejected" }

/-- The routing decision (`route_app`, `src/app.py:88-96`).  The Python
code reads both fields with `state.get(...)`, which returns `None` for an
absent key, so the comparisons are against `some "Match"` /
`some "Senior-level"`. -/
def route_app (st : State) : String :=
  if st.skill_match = some "Match" then "schedule_interview"
  else if st.experience_level = some "Senior-level" then "escalate_to_recruiter"
  else "reject_application"

/-- The five graph nodes added at `src/app.py:82-86`. -/
inductive Stage
  | categorize_experience
  | assess_skillset
  | schedule_interview
  | escalate_to_recruiter
  | reject_application
deriving DecidableEq

/-- A stage is terminal when its only outgoing edge goes to `END`
(`src/app.py:109-111`). -/
def Stage.isTerminal : Stage → Bool
  | .schedule_interview => true
  | .escalate_to_recruiter => true
  | .reject_application => true
  | _ => false

/-- The mapping given to `add_conditional_edges` (`src/app.py:100-108`):
each of the three names `route_app` can return is mapped to the node of
the same name. -/
def routeTarget (name : String) : Option Stage :=
  if name = "schedule_interview" then some .schedule_interview
  else if name = "escalate_to_recruiter" then some .escalate_to_recruiter
  else if name = "reject_application" then some .reject_application
  else none

/-- The edges of the graph (`src/app.py:98-111`): `categorize_experience`
flows to `assess_skillset`; `assess_skillset` flows to the stage selected
by `route_app` on the current state; the three terminal stages flow to
`END`, modelled as `none`. -/
def nextNode : Stage → State → Option Stage
  | .categorize_experience, _ => some .assess_skillset
  | .assess_skillset, st => routeTarget (route_app st)
  | .schedule_interview, _ => none
  | .escalate_to_recruiter, _ => none
  | .reject_application, _ => none

/-- The classifier port: the outcome of each of the two model calls, a raw
reply string or a transport failure of type `E`.  The calls in
`src/app.py:38` and `src/app.py:59` are modelled as these two values. -/
structure Classifier (E : Type) where
  expReply : Except E String
  skillReply : Except E String

/-- Errors that can escape a graph run: a propagated classifier failure,
or LangGraph's recursion limit. -/
inductive RunErr (E : Type)
  | classifier (e : E)
  | recursionLimit
deriving DecidableEq

/-- Execute one stage on a state.  The two classifier stages propagate a
failed call (nothing in `src/app.py` catches it); terminal stages always
succeed. -/
def execStage (c : Classifier E) : Stage → State → Except (RunErr E) State
  | .categorize_experience, st =>
      match c.expReply with
      | .error e => .error (.classifier e)
      | .ok r => .ok (categorize_experience r st)
  | .assess_skillset, st =>
      match c.skillReply with
      | .error e => .error (.classifier e)
      | .ok r => .ok (assess_skillset r st)
  | .schedule_interview, st => .ok (schedule_interview st)
  | .escalate_to_recruiter, st => .ok (escalate_to_recruiter st)
  | .reject_application, st => .ok (reject_application st)

/-- Run the graph from a stage, following `nextNode` until `END`, with
fuel for LangGraph's recursion limit.  Returns the final state together
with the trace of executed stages, in order. -/
def runFrom (c : Classifier E) : Nat → Stage → State → Except (RunErr E) (State × List Stage)
  | 0, _, _ => .error .recursionLimit
  | fuel + 1, s, st =>
      match execStage c s st with
      | .error e => .error e
      | .ok st2 =>
          match nextNode s st2 with
          | none => .ok (st2, [s])
          | some s2 =>
              match runFrom c fuel s2 st2 with
              | .error e => .error e
              | .ok (stf, tr) => .ok (stf, s :: tr)

/-- `app.invoke(input)` (`src/app.py:113,116`): run from the entry edge
`START → categorize_experience` with LangGraph's default recursion limit
of 25. -/
def invoke (c : Classifier E) (input : State) : Except (RunErr E) (State × List Stage) :=
  runFrom c 25 .categorize_experience input

/-- The three-field result dict built by the façade (`src/app.py:117-121`). -/
structure ScreeningResult where
  experience_level : String
  skill_match : String
  response : String
deriving DecidableEq

/-- Read the three derived fields out of a final graph state, substituting
the defaults of `results.get(key, default)` (`src/app.py:118-120`). -/
def readback (st : State) : ScreeningResult :=
  { experience_level := st.experience_level.getD "Unknown"
    skill_match := st.skill_match.getD "No Match"
    response := st.response.getD "Candidate Rejected" }

/-- The initial state built by `app.invoke({"application": application})`
(`src/app.py:116`): only the `application` key is present. -/
def initState (application : String) : State :=
  { application := some application, experience_level := none,
    skill_match := none, response := none }

/-- `run_candidate_screening` (`src/app.py:115-121`): seed the state with
only `application` populated, run the graph, read back the three fields. -/
def run_candidate_screening (c : Classifier E) (application : String) :
    Except (RunErr E) ScreeningResult :=
  match invoke c (initState application) with
  | .error e => .error e
  | .ok (st, _) => .ok (readback st)

/-- The state just before the routing decision on a run with raw replies
`e` (experience) and `s` (skill): both classification fields set. -/
def midState (app e s : String) : State :=
  { application := some app, experience_level := some (normalizeExperience e),
    skill_match := some (normalizeSkill s), response := none }

/-! Supporting lemmas shared by the claim theorems. -/

/-- The skill normalization only ever produces its two buckets. -/
theorem normalizeSkill_cases (r : String) :
    normalizeSkill r = "No Match" ∨ normalizeSkill r = "Match" := by
  unfold normalizeSkill
  dsimp only
  split
  · exact Or.inl rfl
  · split
    · exact Or.inr rfl
    · exact Or.inl rfl

/-- Closed form of a successful graph run: both classifier calls return,
the two classification stages run in order, and the terminal stage follows
the routing rule on the normalized replies. -/
theorem invoke_ok_eq (E : Type) (e s : String) (st : State) :
    invoke (E := E) ⟨.ok e, .ok s⟩ st =
      (if normalizeSkill s = "Match" then
        .ok ({ st with
                 experience_level := some (normalizeExperience e),
                 skill_match := some (normalizeSkill s),
                 response := some "Interview Scheduled" },
             [.categorize_experience, .assess_skillset, .schedule_interview])
      else if normalizeExperience e = "Senior-level" then
        .ok ({ st with
                 experience_level := some (normalizeExperience e),
                 skill_match := some (normalizeSkill s),
                 response := some "Candidate Escalated" },
             [.categorize_experience, .assess_skillset, .escalate_to_recruiter])
      else
        .ok ({ st with
                 experience_level := some (normalizeExperience e),
                 skill_match := some (normalizeSkill s),
                 response := some "Candidate Rejected" },
             [.categorize_experience, .assess_skillset, .reject_application])) := by
  by_cases hm : normalizeSkill s = "Match"
  · simp [invoke, runFrom, execStage, nextNode, categorize_experience, assess_skillset,
          route_app, routeTarget, schedule_interview, hm]
  · by_cases he : normalizeExperience e = "Senior-level"
    · simp [invoke, runFrom, execStage, nextNode, categorize_experience, assess_skillset,
            route_app, routeTarget, escalate_to_recruiter, hm, he]
    · simp [invoke, runFrom, execStage, nextNode, categorize_experience, assess_skillset,
            route_app, routeTarget, reject_application, hm, he]

/-- A failed first classifier call aborts the run immediately. -/
theorem invoke_expFail (E : Type) (e : E) (sr : Except E String) (st : State) :
    invoke (E := E) ⟨.error e, sr⟩ st = .error (.classifier e) := by
  simp [invoke, runFrom, execStage]

/-- A failed second classifier call aborts the run after the first stage. -/
theorem invoke_skillFail (E : Type) (r : String) (e : E) (st : State) :
    invoke (E := E) ⟨.ok r, .error e⟩ st = .error (.classifier e) := by
  simp [invoke, runFrom, execStage, nextNode]

/-! The claim theorems. -/

/-- C1: the routing decision is exactly the three-branch rule, with skill
match dominating seniority: on every screening state, `skill_match ==
"Match"` selects `schedule_interview` (whose response is "Interview
Scheduled") regardless of `experience_level`; otherwise `experience_level
== "Senior-level"` selects `escalate_to_recruiter` ("Candidate
Escalated"); otherwise `reject_application` ("Candidate Rejected"). -/
theorem C1_routing_rule (st : State) :
    (st.skill_match = some "Match" →
        route_app st = "schedule_interview" ∧
        (schedule_interview st).response = some "Interview Scheduled") ∧
    (st.skill_match ≠ some "Match" → st.experience_level = some "Senior-level" →
        route_app st = "escalate_to_recruiter" ∧
        (escalate_to_recruiter st).response = some "Candidate Escalated") ∧
    (st.skill_match ≠ some "Match" → st.experience_level ≠ some "Senior-level" →
        route_app st = "reject_application" ∧
        (reject_application st).response = some "Candidate Rejected") := by
  refine ⟨fun h => ⟨?_, rfl⟩, fun h1 h2 => ⟨?_, rfl⟩, fun h1 h2 => ⟨?_, rfl⟩⟩
  · simp [route_app, h]
  · simp [route_app, h1, h2]
  · simp [route_app, h1, h2]

/-- Witness for C1, exercising all three branches at concrete states;
the first branch has a non-"Senior-level" experience level, showing skill
match dominating seniority is irrelevant there. -/
theorem C1_routing_rule_witness :
    (route_app ⟨none, some "Senior-level", some "Match", none⟩ = "schedule_interview" ∧
      (schedule_interview ⟨none, some "Senior-level", some "Match", none⟩).response =
        some "Interview Scheduled") ∧
    (route_app ⟨none, some "Senior-level", some "No Match", none⟩ = "escalate_to_recruiter" ∧
      (escalate_to_recruiter ⟨none, some "Senior-level", some "No Match", none⟩).response =
        some "Candidate Escalated") ∧
    (route_app ⟨none, some "Entry-level", some "No Match", none⟩ = "reject_application" ∧
      (reject_application ⟨none, some "Entry-level", some "No Match", none⟩).response =
        some "Candidate Rejected") :=
  ⟨(C1_routing_rule _).1 rfl,
   (C1_routing_rule _).2.1 (by decide) rfl,
   (C1_routing_rule _).2.2 (by decide) (by decide)⟩

/-- C2: for every application text, when both classifier calls return, the
screening run terminates with `response` equal to exactly one of the three
outcome strings; the trace contains exactly one terminal stage, so
`response` is written exactly once. -/
theorem C2_terminates_in_three (E : Type) (app e s : String) :
    ∃ st tr r,
      invoke (E := E) ⟨.ok e, .ok s⟩ (initState app) = .ok (st, tr) ∧
      run_candidate_screening (E := E) ⟨.ok e, .ok s⟩ app = .ok r ∧
      tr.countP (fun t => t.isTerminal) = 1 ∧
      (r.response = "Interview Scheduled" ∨ r.response = "Candidate Escalated" ∨
        r.response = "Candidate Rejected") := by
  by_cases hm : normalizeSkill s = "Match"
  · refine ⟨⟨some app, some (normalizeExperience e), some (normalizeSkill s),
        some "Interview Scheduled"⟩,
      [.categorize_experience, .assess_skillset, .schedule_interview],
      ⟨normalizeExperience e, normalizeSkill s, "Interview Scheduled"⟩,
      ?_, ?_, by decide, Or.inl rfl⟩
    · rw [invoke_ok_eq]; simp [hm, initState]
    · simp [run_candidate_screening, invoke_ok_eq, hm, initState, readback]
  · by_cases he : normalizeExperience e = "Senior-level"
    · refine ⟨⟨some app, some (normalizeExperience e), some (normalizeSkill s),
          some "Candidate Escalated"⟩,
        [.categorize_experience, .assess_skillset, .escalate_to_recruiter],
        ⟨normalizeExperience e, normalizeSkill s, "Candidate Escalated"⟩,
        ?_, ?_, by decide, Or.inr (Or.inl rfl)⟩
      · rw [invoke_ok_eq]; simp [hm, he, initState]
      · simp [run_candidate_screening, invoke_ok_eq, hm, he, initState, readback]
    · refine ⟨⟨some app, some (normalizeExperience e), some (normalizeSkill s),
          some "Candidate Rejected"⟩,
        [.categorize_experience, .assess_skillset, .reject_application],
        ⟨normalizeExperience e, normalizeSkill s, "Candidate Rejected"⟩,
        ?_, ?_, by decide, Or.inr (Or.inr rfl)⟩
      · rw [invoke_ok_eq]; simp [hm, he, initState]
      · simp [run_candidate_screening, invoke_ok_eq, hm, he, initState, readback]

/-- C3: the skill-assessment stage checks the lowercased, stripped raw
reply for the substring "no match" before "match"; a reply containing
both normalizes to "No Match", never to "Match". -/
theorem C3_skill_tiebreak (r : String) :
    (strContainsSub (pyLower (pyStrip r)) "no match" = true →
        normalizeSkill r = "No Match") ∧
    (strContainsSub (pyLower (pyStrip r)) "no match" = false →
      strContainsSub (pyLower (pyStrip r)) "match" = true →
        normalizeSkill r = "Match") ∧
    (strContainsSub (pyLower (pyStrip r)) "no match" = true →
      strContainsSub (pyLower (pyStrip r)) "match" = true →
        normalizeSkill r = "No Match" ∧ normalizeSkill r ≠ "Match") := by
  refine ⟨fun h1 => ?_, fun h1 h2 => ?_, fun h1 h2 => ⟨?_, ?_⟩⟩ <;>
    simp [normalizeSkill, h1, *]

/-- Witness for C3 at the reply "No Match", which contains both "no
match" and "match" as substrings after lowercasing. -/
theorem C3_skill_tiebreak_witness :
    normalizeSkill "No Match" = "No Match" ∧ normalizeSkill "No Match" ≠ "Match" :=
  (C3_skill_tiebreak "No Match").2.2 (by decide) (by decide)

/-- C4: the experience stage matches the lowercased, stripped raw reply
for "entry", "mid", "senior" in that priority order with first match
winning; if none match, the level is "Unknown". -/
theorem C4_experience_priority (r : String) :
    (strContainsSub (pyLower (pyStrip r)) "entry" = true →
        normalizeExperience r = "Entry-level") ∧
    (strContainsSub (pyLower (pyStrip r)) "entry" = false →
      strContainsSub (pyLower (pyStrip r)) "mid" = true →
        normalizeExperience r = "Mid-level") ∧
    (strContainsSub (pyLower (pyStrip r)) "entry" = false →
      strContainsSub (pyLower (pyStrip r)) "mid" = false →
      strContainsSub (pyLower (pyStrip r)) "senior" = true →
        normalizeExperience r = "Senior-level") ∧
    (strContainsSub (pyLower (pyStrip r)) "entry" = false →
      strContainsSub (pyLower (pyStrip r)) "mid" = false →
      strContainsSub (pyLower (pyStrip r)) "senior" = false →
        normalizeExperience r = "Unknown") := by
  refine ⟨fun h1 => ?_, fun h1 h2 => ?_, fun h1 h2 h3 => ?_, fun h1 h2 h3 => ?_⟩ <;>
    simp [normalizeExperience, h1, *]

/-- Witness for C4 at a reply containing both "senior" and "entry": the
first keyword in priority order ("entry") wins. -/
theorem C4_experience_priority_witness :
    normalizeExperience "Senior or entry" = "Entry-level" :=
  (C4_experience_priority "Senior or entry").1 (by decide)

/-- C5: a failed classifier call during either classification stage
propagates out of the whole run: `run_candidate_screening` returns the
error, not a defaulted result. -/
theorem C5_failure_propagates (E : Type) (e : E) (app r : String) (sc : Except E String) :
    run_candidate_screening (E := E) ⟨.error e, sc⟩ app = .error (.classifier e) ∧
    run_candidate_screening (E := E) ⟨.ok r, .error e⟩ app = .error (.classifier e) := by
  constructor
  · simp [run_candidate_screening, invoke_expFail]
  · simp [run_candidate_screening, invoke_skillFail]

/-- C6: out-of-vocabulary classifier replies never fail the run: a reply
recognized by neither normalization yields `experience_level = "Unknown"`
and `skill_match = "No Match"`, and the run proceeds normally to a routed
result (here the reject branch, since nothing matched). -/
theorem C6_oov_no_error (E : Type) (app e s : String)
    (h1 : strContainsSub (pyLower (pyStrip e)) "entry" = false)
    (h2 : strContainsSub (pyLower (pyStrip e)) "mid" = false)
    (h3 : strContainsSub (pyLower (pyStrip e)) "senior" = false)
    (h4 : strContainsSub (pyLower (pyStrip s)) "no match" = false)
    (h5 : strContainsSub (pyLower (pyStrip s)) "match" = false) :
    normalizeExperience e = "Unknown" ∧ normalizeSkill s = "No Match" ∧
    run_candidate_screening (E := E) ⟨.ok e, .ok s⟩ app =
      .ok ⟨"Unknown", "No Match", "Candidate Rejected"⟩ := by
  have hE : normalizeExperience e = "Unknown" := by
    simp [normalizeExperience, h1, h2, h3]
  have hS : normalizeSkill s = "No Match" := by
    simp [normalizeSkill, h4, h5]
  have hm : ¬ normalizeSkill s = "Match" := by rw [hS]; decide
  have he : ¬ normalizeExperience e = "Senior-level" := by rw [hE]; decide
  refine ⟨hE, hS, ?_⟩
  simp [run_candidate_screening, invoke_ok_eq, hm, he, initState, readback, hE, hS]

/-- Witness for C6 at the empty reply for both stages. -/
theorem C6_oov_no_error_witness :
    normalizeExperience "" = "Unknown" ∧ normalizeSkill "" = "No Match" ∧
    run_candidate_screening (E := Unit) ⟨.ok "", .ok ""⟩ "some application" =
      .ok ⟨"Unknown", "No Match", "Candidate Rejected"⟩ :=
  C6_oov_no_error Unit "some application" "" ""
    (by decide) (by decide) (by decide) (by decide) (by decide)

/-- C7: the façade substitutes defaults for any field the graph run left
unset, so its result always has all three fields populated: for every
final graph state, `run_candidate_screening` returns exactly the three
`getD` readbacks with defaults "Unknown" / "No Match" /
"Candidate Rejected". -/
theorem C7_facade_defaults (E : Type) (c : Classifier E) (app : String)
    (st : State) (tr : List Stage)
    (h : invoke c (initState app) = .ok (st, tr)) :
    run_candidate_screening c app =
      .ok ⟨st.experience_level.getD "Unknown", st.skill_match.getD "No Match",
           st.response.getD "Candidate Rejected"⟩ := by
  simp [run_candidate_screening, h, readback]

/-- Witness for C7 on a concrete successful run. -/
theorem C7_facade_defaults_witness :
    run_candidate_screening (E := Unit) ⟨.ok "Mid-level", .ok "Match"⟩ "app" =
      .ok ⟨(some "Mid-level").getD "Unknown", (some "Match").getD "No Match",
           (some "Interview Scheduled").getD "Candidate Rejected"⟩ :=
  C7_facade_defaults Unit ⟨.ok "Mid-level", .ok "Match"⟩ "app"
    ⟨some "app", some "Mid-level", some "Match", some "Interview Scheduled"⟩
    [.categorize_experience, .assess_skillset, .schedule_interview]
    rfl

/-- C8: in every run (with both classifier calls returning) the stages
execute in the fixed order `categorize_experience`, `assess_skillset`,
then exactly one terminal stage chosen by the routing decision; both
classification fields are set, each by its single occurrence in the
trace, before routing is evaluated on them. -/
theorem C8_stage_order (E : Type) (app e s : String) :
    ∃ t stf,
      Stage.isTerminal t = true ∧
      invoke (E := E) ⟨.ok e, .ok s⟩ (initState app) =
        .ok (stf, [.categorize_experience, .assess_skillset, t]) ∧
      stf.experience_level = some (normalizeExperience e) ∧
      stf.skill_match = some (normalizeSkill s) ∧
      routeTarget (route_app (midState app e s)) = some t := by
  by_cases hm : normalizeSkill s = "Match"
  · refine ⟨.schedule_interview, ⟨some app, some (normalizeExperience e),
        some (normalizeSkill s), some "Interview Scheduled"⟩, rfl, ?_, rfl, rfl, ?_⟩
    · rw [invoke_ok_eq]; simp [hm, initState]
    · simp [routeTarget, route_app, midState, hm]
  · by_cases he : normalizeExperience e = "Senior-level"
    · refine ⟨.escalate_to_recruiter, ⟨some app, some (normalizeExperience e),
          some (normalizeSkill s), some "Candidate Escalated"⟩, rfl, ?_, rfl, rfl, ?_⟩
      · rw [invoke_ok_eq]; simp [hm, he, initState]
      · simp [routeTarget, route_app, midState, hm, he]
    · refine ⟨.reject_application, ⟨some app, some (normalizeExperience e),
          some (normalizeSkill s), some "Candidate Rejected"⟩, rfl, ?_, rfl, rfl, ?_⟩
      · rw [invoke_ok_eq]; simp [hm, he, initState]
      · simp [routeTarget, route_app, midState, hm, he]

/-- C9: routing is total on partial states: whenever `skill_match` is
absent or differs from "Match", `route_app` never selects
`schedule_interview` (and, being a total function over states with
optional fields, embeds the `dict.get` accesses, which cannot raise a
missing-key error); on a state with both classification fields absent it
returns `reject_application`. -/
theorem C9_route_total (st : State) (h : st.skill_match ≠ some "Match") :
    route_app st ≠ "schedule_interview" ∧
    ∀ a r, route_app ⟨a, none, none, r⟩ = "reject_application" := by
  refine ⟨?_, fun a r => rfl⟩
  unfold route_app
  rw [if_neg h]
  split
  · decide
  · decide

/-- Witness for C9 at the state with every field absent. -/
theorem C9_route_total_witness :
    route_app ⟨none, none, none, none⟩ ≠ "schedule_interview" ∧
    ∀ a r, route_app ⟨a, none, none, r⟩ = "reject_application" :=
  C9_route_total ⟨none, none, none, none⟩ (by decide)

/-- C10: routing noninterference: two states agreeing on `skill_match`
and `experience_level` but differing arbitrarily in `application` and
`response` are routed identically. -/
theorem C10_route_noninterference (s1 s2 : State)
    (hs : s1.skill_match = s2.skill_match)
    (he : s1.experience_level = s2.experience_level) :
    route_app s1 = route_app s2 := by
  simp only [route_app, hs, he]

/-- Witness for C10 on two states differing in `application` and
`response`. -/
theorem C10_route_noninterference_witness :
    route_app ⟨some "application A", some "Mid-level", some "Match", none⟩ =
      route_app ⟨some "application B", some "Mid-level", some "Match",
                 some "Interview Scheduled"⟩ :=
  C10_route_noninterference _ _ rfl rfl

end Screening
